import Mathlib

/-!
Verification of the MCP tool-invocation protocol layer of the repository:
the Server Dispatcher (`tool_provider_mcp_server.py`, class
`ToolProviderMCPServer`) and the Client Provider (`tool_agent_mcp_client.py`,
class `MCPToolProvider`).

Python JSON-ish values (the results of `json.loads` and the dict/list
literals the code builds) are embedded as the inductive `Value`.  Python
`None` is `Value.null`.  Dict access `d.get(k, default)` is embedded as
`Value.getD`; on a non-object it returns the default (the Python code would
raise there; no theorem below exercises such a shape).  Tool handlers, which
in Python may raise, are embedded as functions into `Except String Value`
(`.error e` is a raised exception with text `e`).
-/

namespace MCP

/-- JSON-like Python value: the payloads the protocol code moves around. -/
inductive Value where
  | null
  | bool (b : Bool)
  | int (n : Int)
  | str (s : String)
  | arr (elems : List Value)
  | obj (fields : List (String × Value))

/-- Dict field lookup: Python `d[k]` / `k in d` support. First binding wins,
as in a Python dict built without duplicate keys. -/
def Value.getField : Value → String → Option Value
  | .obj fields, k => fields.lookup k
  | _, _ => none

/-- Python `d.get(k, default)`. -/
def Value.getD (v : Value) (k : String) (default : Value) : Value :=
  (v.getField k).getD default

/-- Python `k in d` for a dict. -/
def Value.hasKey (v : Value) (k : String) : Bool :=
  (v.getField k).isSome

/-- Python `isinstance(x, dict)`. -/
def Value.isDict : Value → Bool
  | .obj _ => true
  | _ => false

/-- Python `x is None`. -/
def Value.isNull : Value → Bool
  | .null => true
  | _ => false

/-- Python `isinstance(x, list)`. -/
def Value.isList : Value → Bool
  | .arr _ => true
  | _ => false

/-- Python truthiness of a JSON-ish value (`if x:`). -/
def Value.truthy : Value → Bool
  | .null => false
  | .bool b => b
  | .int n => n != 0
  | .str s => s != ""
  | .arr elems => !elems.isEmpty
  | .obj fields => !fields.isEmpty

mutual

/-- Python `repr` of a JSON-ish value (used by `str` on containers).
String escaping inside `repr` is not modelled; no theorem depends on it. -/
def pyRepr : Value → String
  | .null => "None"
  | .bool true => "True"
  | .bool false => "False"
  | .int n => toString n
  | .str s => "\x27" ++ s ++ "\x27"
  | .arr elems => "[" ++ String.intercalate ", " (pyReprList elems) ++ "]"
  | .obj fields => "\x7b" ++ String.intercalate ", " (pyReprFields fields) ++ "\x7d"

/-- `pyRepr` mapped over a list (mutual helper). -/
def pyReprList : List Value → List String
  | [] => []
  | v :: vs => pyRepr v :: pyReprList vs

/-- `pyRepr` of the key/value pairs of a dict (mutual helper). -/
def pyReprFields : List (String × Value) → List String
  | [] => []
  | (k, v) :: fs => ("\x27" ++ k ++ "\x27: " ++ pyRepr v) :: pyReprFields fs

end

/-- Python `str` of a JSON-ish value: identity on strings, `repr`-like
elsewhere (used in f-string interpolation). -/
def pyStr : Value → String
  | .str s => s
  | v => pyRepr v

mutual

/-- Python `json.dumps` of a JSON-ish value.  Whitespace produced by
`indent=2` and string escaping are not modelled; no theorem depends on the
exact text. -/
def dumps : Value → String
  | .null => "null"
  | .bool true => "true"
  | .bool false => "false"
  | .int n => toString n
  | .str s => "\x22" ++ s ++ "\x22"
  | .arr elems => "[" ++ String.intercalate ", " (dumpsList elems) ++ "]"
  | .obj fields => "\x7b" ++ String.intercalate ", " (dumpsFields fields) ++ "\x7d"

/-- `dumps` mapped over a list (mutual helper). -/
def dumpsList : List Value → List String
  | [] => []
  | v :: vs => dumps v :: dumpsList vs

/-- `dumps` of the key/value pairs of a dict (mutual helper). -/
def dumpsFields : List (String × Value) → List String
  | [] => []
  | (k, v) :: fs => ("\x22" ++ k ++ "\x22: " ++ dumps v) :: dumpsFields fs

end

/-! ## Server side: `ToolProviderMCPServer` (tool_provider_mcp_server.py) -/

/-- How a tool handler is invoked: Python `method()`, `method(x)`. -/
inductive HandlerArg where
  | noArgs
  | withValue (v : Value)

/-- The `param_info` dict a tool provider declares for a tool
(see `mock_providers.py`).  `type` is the Python value of the `"type"` key,
which every provider states explicitly (`None` for parameterless tools, or
`"string"`, `"array"`, `"object"`); `schema` and `required_fields` model the
optional keys of the same names (`.get` defaults: `{}` and `[]`). -/
structure ParamInfo where
  required : Bool
  type : Option String
  description : Option String
  schema : List (String × String)
  required_fields : List String
deriving DecidableEq

/-- One entry of `ToolProviderMCPServer.tools`: the bound handler
(`method`, raising modelled as `Except.error`), the human description, and
the provider and parameter metadata attached by `register_provider`. -/
structure ToolEntry where
  method : HandlerArg → Except String Value
  description : String
  provider_name : String
  param_info : ParamInfo

/-- The server tool registry `self.tools`: qualified tool name to entry. -/
abbrev Registry := List (String × ToolEntry)

/-- `ToolProviderMCPServer.create_jsonrpc_result`. -/
def create_jsonrpc_result (result : Value) (id : Value) : Value :=
  .obj [("jsonrpc", .str "2.0"), ("result", result), ("id", id)]

/-- `ToolProviderMCPServer.create_jsonrpc_error`: the `data` key is added
only when `data is not None`. -/
def create_jsonrpc_error (code : Int) (message : String) (data : Option Value)
    (id : Value) : Value :=
  let base := [("code", Value.int code), ("message", Value.str message)]
  let err := match data with
    | some d => base ++ [("data", d)]
    | none => base
  .obj [("jsonrpc", .str "2.0"), ("error", .obj err), ("id", id)]

/-- Loop body of `ToolProviderMCPServer.get_tool_schemas` for one registered
tool: builds the ToolDescriptor dict, branching on the declared parameter
type exactly as the source does. -/
def tool_schema (tool_name : String) (t : ToolEntry) : Value :=
  let p := t.param_info
  let inputProperties : List (String × Value) :=
    if p.type = some "string" then
      [("param", .obj [("type", .str "string"),
        ("description", .str (p.description.getD "String parameter"))])]
    else if p.type = some "object" then
      p.schema.map fun kv =>
        (kv.1, Value.obj [("type", .str "string"), ("description", .str kv.2)])
    else []
  let inputRequired : List Value :=
    if p.type = some "string" then
      if p.required then [.str "param"] else []
    else if p.type = some "object" then
      if p.required then p.required_fields.map .str else []
    else []
  let exampleArguments : List (String × Value) :=
    if p.type = some "string" then
      if p.required then [("param", .str "example value")] else []
    else if p.type = some "object" then
      p.schema.map fun kv => (kv.1, Value.str ("example " ++ kv.1))
    else []
  .obj [
    ("name", .str tool_name),
    ("description", .str (t.description ++ " (from " ++ t.provider_name ++ ")")),
    ("inputSchema", .obj [
      ("type", .str "object"),
      ("properties", .obj inputProperties),
      ("required", .arr inputRequired)]),
    ("annotations", .obj [
      ("usage", .str ("Use this tool when you need to " ++ t.description.toLower)),
      ("examples", .arr [.obj [
        ("description", .str ("Example of using " ++ tool_name)),
        ("arguments", .obj exampleArguments)]])])]

/-- `ToolProviderMCPServer.get_tool_schemas`: one descriptor per tool. -/
def get_tool_schemas (tools : Registry) : List Value :=
  tools.map fun nt => tool_schema nt.1 nt.2

/-- Parameter processing inside `ToolProviderMCPServer.execute_tool`
(lines 127-141): which call the handler receives.  Mirrors the branch
`if param_type == "string" and isinstance(params, dict) and "param" in
params`, `elif param_info.get("required", False) and params is not None`,
`else` call with no arguments. -/
def coerce_args (p : ParamInfo) (params : Value) : HandlerArg :=
  if p.type = some "string" ∧ params.isDict ∧ params.hasKey "param" then
    .withValue (params.getD "param" .null)
  else if p.required && !params.isNull then
    .withValue params
  else
    .noArgs

/-- Result conversion at the end of `ToolProviderMCPServer.execute_tool`:
a handler value (always JSON-serializable in this model) is returned as is;
a raised exception becomes the `error` dict built by the `except` clause. -/
def process_result : Except String Value → Value
  | .ok r => r
  | .error e => .obj [("error", .str ("Error executing tool: " ++ e))]

/-- Python `tool_name not in self.tools` where `self.tools` has string keys:
a non-string name is never found. -/
def registry_lookup (tools : Registry) : Value → Option ToolEntry
  | .str s => tools.lookup s
  | _ => none

/-- `ToolProviderMCPServer.execute_tool`: unknown tool gives the error dict;
otherwise the handler runs on the coerced arguments and any exception is
caught and converted. -/
def execute_tool (tools : Registry) (tool_name : Value) (params : Value) : Value :=
  match registry_lookup tools tool_name with
  | none => .obj [("error", .str ("Tool \x27" ++ pyStr tool_name ++ "\x27 not found"))]
  | some t => process_result (t.method (coerce_args t.param_info params))

/-- `ToolProviderMCPServer._handle_tool_call`: extracts name/arguments per
protocol (`tools/call` top-level, `executeToolCall` nested under `toolCall`),
rejects a missing/falsy name with `-32602`, runs the tool, and wraps the
outcome in a JSON-RPC *result* envelope with `isError` set from the presence
of an `error` key in the tool outcome. -/
def handle_tool_call (tools : Registry) (method : String) (params : Value)
    (id : Value) : Value :=
  let tool_name :=
    if method = "tools/call" then params.getD "name" .null
    else (params.getD "toolCall" (.obj [])).getD "name" .null
  let arguments :=
    if method = "tools/call" then params.getD "arguments" (.obj [])
    else (params.getD "toolCall" (.obj [])).getD "arguments" (.obj [])
  if !tool_name.truthy then
    create_jsonrpc_error (-32602) "Invalid params" (some (.str "Tool name is required")) id
  else
    let result := execute_tool tools tool_name arguments
    if result.isDict && result.hasKey "error" then
      let error_message := result.getD "error" .null
      create_jsonrpc_result (.obj [
        ("content", .arr [.obj [("type", .str "text"), ("text", error_message)]]),
        ("isError", .bool true)]) id
    else
      let content : List Value :=
        if result.isDict || result.isList then
          [.obj [("type", .str "text"), ("text", .str (dumps result))]]
        else
          [.obj [("type", .str "text"), ("text", .str (pyStr result))]]
      create_jsonrpc_result (.obj [
        ("content", .arr content),
        ("isError", .bool false)]) id

/-- `ToolProviderMCPServer._handle_initialize`: a constant capability and
identity payload, echoing the `protocolVersion` of the params (default the
string `unknown`). -/
def handle_initialize_request (params : Value) (id : Value) : Value :=
  let protocol_version := params.getD "protocolVersion" (.str "unknown")
  create_jsonrpc_result (.obj [
    ("capabilities", .obj [
      ("supportsToolDefinitions", .bool true),
      ("supportsToolCalls", .bool true),
      ("supportedToolDefinitionProtocols", .arr [.str "2024-11-05"]),
      ("tools", .obj [("listChanged", .bool true)])]),
    ("serverInfo", .obj [
      ("name", .str "ToolProvider MCP Server"),
      ("version", .str "0.1.0")]),
    ("protocolVersion", protocol_version)]) id

/-- `ToolProviderMCPServer._handle_tools_list`. -/
def handle_tools_list (tools : Registry) (id : Value) : Value :=
  create_jsonrpc_result (.obj [("tools", .arr (get_tool_schemas tools))]) id

/-- Observable effect of handling one message: a frame written to standard
output (a returned response the loop writes, or the direct write inside
`_handle_exit`), or process termination (`sys.exit(0)`). -/
inductive Action where
  | write (response : Value)
  | exitProcess

/-- The responses among a list of actions. -/
def writesOf : List Action → List Value
  | [] => []
  | .write r :: rest => r :: writesOf rest
  | .exitProcess :: rest => writesOf rest

/-- `ToolProviderMCPServer._handle_shutdown`: acknowledge with null. -/
def handle_shutdown_request (id : Value) : Value :=
  create_jsonrpc_result .null id

/-- `ToolProviderMCPServer._handle_exit`: writes the null-result response to
standard output itself, then calls `sys.exit(0)` (which the dispatcher's
`except Exception` does not catch). -/
def handle_exit_request (id : Value) : List Action :=
  [.write (create_jsonrpc_result .null id), .exitProcess]

/-- Fallback branch of `ToolProviderMCPServer.handle_request`: the
`-32601 Method not found` protocol error. -/
def method_not_found (method : Value) (id : Value) : Value :=
  create_jsonrpc_error (-32601) "Method not found"
    (some (.str ("Method \x27" ++ pyStr method ++ "\x27 not found"))) id

/-- `ToolProviderMCPServer.handle_request`: dispatch on the method string
(default the empty string); a Python `==` against a string literal is false
for any non-string method value.  A returned response is modelled as a
single `write` action, since `start_stdio_server` writes every non-None
return value. -/
def handle_request (tools : Registry) (request : Value) : List Action :=
  let method := request.getD "method" (.str "")
  let params := request.getD "params" (.obj [])
  let id := request.getD "id" .null
  match method with
  | .str s =>
    if s = "initialize" then [.write (handle_initialize_request params id)]
    else if s = "tools/list" ∨ s = "getToolDefinitions" then
      [.write (handle_tools_list tools id)]
    else if s = "tools/call" then [.write (handle_tool_call tools "tools/call" params id)]
    else if s = "executeToolCall" then
      [.write (handle_tool_call tools "executeToolCall" params id)]
    else if s = "shutdown" then [.write (handle_shutdown_request id)]
    else if s = "exit" then handle_exit_request id
    else if s = "ping" then [.write (create_jsonrpc_result (.obj [("status", .str "ok")]) id)]
    else [.write (method_not_found (.str s) id)]
  | other => [.write (method_not_found other id)]

/-- `ToolProviderMCPServer.handle_notification`: `exit` terminates the
process; `notifications/initialized` and unknown methods are only logged.
No branch produces a reply. -/
def handle_notification_msg (message : Value) : List Action :=
  let method := message.getD "method" (.str "")
  match method with
  | .str s => if s = "exit" then [.exitProcess] else []
  | _ => []

/-- `ToolProviderMCPServer.handle_jsonrpc_message`: a message whose dict has
no `id` key is a notification, anything else is a request. -/
def handle_jsonrpc_message (tools : Registry) (message : Value) : List Action :=
  if !message.hasKey "id" then handle_notification_msg message
  else handle_request tools message

/-- Does a response carry a JSON-RPC protocol-level `error` object with the
given code? -/
def isProtocolError (response : Value) (code : Int) : Bool :=
  match response.getField "error" with
  | some e => match e.getField "code" with
    | some (.int c) => c == code
    | _ => false
  | none => false

/-- Is a response a JSON-RPC *success* envelope whose result carries
`isError: true`? -/
def isToolLevelError (response : Value) : Bool :=
  match response.getField "result" with
  | some r => match r.getField "isError" with
    | some (.bool true) => true
    | _ => false
  | none => false

/-- The parameter contracts of the 19 tools the server registers at startup
(`mock_providers.py`: UtilityToolProvider, AppointmentToolProvider,
ProgramToolProvider, StoreLocatorToolProvider), keyed by the qualified name
`register_provider` builds.  The `item_type` key of
`get_programs_for_topics` is not read by the server and is not modelled. -/
def registry_param_info : List (String × ParamInfo) :=
  [("UtilityToolProvider_get_weather",
    ⟨true, some "string", some "Zipcode as a string (e.g., \x2290210\x22)", [], []⟩),
   ("UtilityToolProvider_get_zipcode",
    ⟨true, some "string", some "Location name as a string (e.g., \x22Beverly Hills, CA\x22)", [], []⟩),
   ("UtilityToolProvider_calculate",
    ⟨true, some "string", some "Mathematical expression as a string (e.g., \x222 + 2\x22)", [], []⟩),
   ("UtilityToolProvider_get_datetime",
    ⟨false, none, some "No parameter needed", [], []⟩),
   ("AppointmentToolProvider_get_appointment_specialties",
    ⟨false, none, some "No parameter needed", [], []⟩),
   ("AppointmentToolProvider_get_available_appointments",
    ⟨true, some "string", some "Specialty name as a string (e.g., \x22dentist\x22)", [], []⟩),
   ("AppointmentToolProvider_get_appointment_details",
    ⟨true, some "string", some "Appointment ID as a string (e.g., \x221\x22)", [], []⟩),
   ("AppointmentToolProvider_book_appointment",
    ⟨true, some "string", some "Appointment ID as a string (e.g., \x221\x22)", [], []⟩),
   ("AppointmentToolProvider_cancel_appointment",
    ⟨true, some "string", some "Appointment ID as a string (e.g., \x221\x22)", [], []⟩),
   ("AppointmentToolProvider_get_my_appointments",
    ⟨false, none, some "No parameter needed", [], []⟩),
   ("ProgramToolProvider_get_relevant_program_topics_from_input",
    ⟨true, some "string", some "User input text as a string", [], []⟩),
   ("ProgramToolProvider_get_program_topics",
    ⟨false, none, some "No parameter needed", [], []⟩),
   ("ProgramToolProvider_get_programs_for_topics",
    ⟨true, some "array", some "List of topic strings (e.g., [\x22python\x22, \x22web\x22])", [], []⟩),
   ("ProgramToolProvider_enroll_in_program",
    ⟨true, some "string", some "Program ID as a string (e.g., \x221\x22)", [], []⟩),
   ("StoreLocatorToolProvider_get_store_types",
    ⟨false, none, some "No parameter needed", [], []⟩),
   ("StoreLocatorToolProvider_get_stores_by_type",
    ⟨true, some "string", some "Store type as a string (e.g., \x22grocery\x22, \x22furniture\x22, \x22electronics\x22)", [], []⟩),
   ("StoreLocatorToolProvider_get_stores_by_name",
    ⟨true, some "string", some "Store name as a string", [], []⟩),
   ("StoreLocatorToolProvider_find_nearest_store",
    ⟨true, some "object", some "An object with \x22location\x22 (required) and \x22store_type\x22 (optional) fields",
     [("location", "String representing the location (e.g., \x22Springfield, IL\x22)"),
      ("store_type", "Optional string representing the store type (e.g., \x22grocery\x22)")], []⟩),
   ("StoreLocatorToolProvider_get_store_details",
    ⟨true, some "string", some "Store ID as a string (e.g., \x221\x22)", [], []⟩)]

/-! ## Client side: `MCPToolProvider` (tool_agent_mcp_client.py) -/

/-- Reply translation inside `MCPToolProvider.execute_tool` (the code after
`send_request` returns): `response` is `None` on transport failure, else the
decoded reply.  `parse` abstracts `json.loads` applied to a content string:
`some v` when the text parses, `none` on `json.JSONDecodeError`.  Branches
where the Python code would raise on a malformed reply (indexing a non-list
`content`, a text block without a string `text` value) fall back to
returning `content`; no theorem exercises those shapes. -/
def client_translate_reply (parse : String → Option Value) (tool_name : String)
    (response : Option Value) : Value :=
  let resp := match response with
    | none => Value.null
    | some r => r
  if !resp.truthy then
    .obj [("error", .str ("No response from server for tool: " ++ tool_name))]
  else if resp.hasKey "error" then
    let error := resp.getD "error" .null
    .obj [("error", .str ("Server error: " ++ pyStr (error.getD "message" (.str "Unknown error"))))]
  else if resp.hasKey "result" then
    let result := resp.getD "result" .null
    if (result.getD "isError" .null).truthy then
      let content := result.getD "content" (.arr [])
      let error_text : Value :=
        match content with
        | .arr (first :: _) => first.getD "text" (.str "Unknown error")
        | _ => .str "Unknown error"
      .obj [("error", error_text)]
    else
      let content := result.getD "content" (.arr [])
      if !content.truthy then
        .obj [("result", .str "Operation completed successfully")]
      else
        match content with
        | .arr (first :: _) =>
          (match first.getD "type" .null with
           | .str tag =>
             if tag = "text" then
               match first.getField "text" with
               | some (.str text) =>
                 (match parse text with
                  | some v => v
                  | none => .str text)
               | _ => content
             else content
           | _ => content)
        | _ => content
  else
    .obj [("error", .str "Invalid response format from server")]

/-- Oracle for one run of `MCPToolProvider.stop_server`: whether the child
process handle exists, what each liveness poll reports, and which of the
four shutdown steps raise when attempted. -/
structure ProcBehavior where
  hasProcess : Bool
  aliveAtEntry : Bool
  shutdownWriteRaises : Bool
  exitWriteRaises : Bool
  aliveAfterGrace : Bool
  terminateRaises : Bool
  aliveAfterTerminate : Bool
  killRaises : Bool

/-- Observable outcome of one run of `MCPToolProvider.stop_server`: which
steps were attempted, whether the outer `except Exception` swallowed an
escaped exception, and whether the `finally` cleared the process handle. -/
structure StopTrace where
  triedShutdownWrite : Bool
  triedExitWrite : Bool
  triedTerminate : Bool
  triedKill : Bool
  outerRescueRan : Bool
  processCleared : Bool

/-- `MCPToolProvider.stop_server` (lines 444-497), straight-lined over the
oracle.  The graceful phase (shutdown request then exit notification then a
short wait) sits in one inner `try` whose bare `except` swallows any raise:
a raise while writing the shutdown request skips the exit notification.
`terminate`/`kill` run only while `poll()` keeps reporting the process
alive; an exception from `terminate` escapes to the outer handler, so `kill`
is skipped.  The `finally` always clears `self.server_process`. -/
def stop_server (b : ProcBehavior) : StopTrace :=
  if !b.hasProcess then
    ⟨false, false, false, false, false, true⟩
  else if !b.aliveAtEntry then
    ⟨false, false, false, false, false, true⟩
  else
    let triedExit := !b.shutdownWriteRaises
    if b.aliveAfterGrace then
      if b.terminateRaises then
        ⟨true, triedExit, true, false, true, true⟩
      else if b.aliveAfterTerminate then
        ⟨true, triedExit, true, true, b.killRaises, true⟩
      else
        ⟨true, triedExit, true, false, false, true⟩
    else
      ⟨true, triedExit, false, false, false, true⟩

/-- Demonstration tool entry whose handler always raises (used to exercise
the dispatcher on a registered failing tool). -/
def demoFailingEntry : ToolEntry :=
  ⟨fun _ => .error "kaboom", "Always fails", "DemoProvider",
   ⟨true, some "string", some "Any string", [], []⟩⟩

/-- Demonstration registry holding the failing tool under the name `boom`. -/
def demoTools : Registry := [("boom", demoFailingEntry)]

/-- Demonstration parameterless tool entry. -/
def demoNoParamEntry : ToolEntry :=
  ⟨fun _ => .ok .null, "Does a thing", "DemoProvider",
   ⟨false, none, some "No parameter needed", [], []⟩⟩

/-- Demonstration object-parameter tool entry with one schema field. -/
def demoObjectEntry : ToolEntry :=
  ⟨fun _ => .ok .null, "Finds a thing", "DemoProvider",
   ⟨true, some "object", some "An object", [("location", "Location string")], []⟩⟩

/-- The `inputSchema` dict of a generated ToolDescriptor. -/
def inputSchemaOf (descriptor : Value) : Value :=
  descriptor.getD "inputSchema" .null

/-! ## Theorems -/

/-- Claim C1, counterexample: a `tools/call` naming a tool absent from the
registry does NOT produce a protocol-level `-32601` error; it produces a
JSON-RPC success response whose result has `isError` true, which the claim
says never happens. -/
theorem C1_counterexample :
    isProtocolError (handle_tool_call [] "tools/call"
      (.obj [("name", .str "missing_tool")]) (.int 7)) (-32601) = false ∧
    isToolLevelError (handle_tool_call [] "tools/call"
      (.obj [("name", .str "missing_tool")]) (.int 7)) = true :=
  ⟨rfl, rfl⟩

/-- Claim C1 as amended: for every registry and every non-empty tool name
not in it, the dispatcher answers a `tools/call` — and likewise an
`executeToolCall`, whose name and arguments are nested under `toolCall` —
with a JSON-RPC *success* response whose result has `isError` true and whose
single text content block reads `Tool <name> not found`; no `-32601`
protocol error is produced. -/
theorem C1_unknown_tool_tool_level_error :
    (∀ (tools : Registry) (name : String) (args : Value) (id : Value),
      name ≠ "" → tools.lookup name = none →
      handle_tool_call tools "tools/call"
          (.obj [("name", .str name), ("arguments", args)]) id
        = create_jsonrpc_result (.obj [
            ("content", .arr [.obj [("type", .str "text"),
              ("text", .str ("Tool \x27" ++ name ++ "\x27 not found"))]]),
            ("isError", .bool true)]) id) ∧
    (∀ (tools : Registry) (name : String) (args : Value) (id : Value),
      name ≠ "" → tools.lookup name = none →
      handle_tool_call tools "executeToolCall"
          (.obj [("toolCall", .obj [("name", .str name), ("arguments", args)])]) id
        = create_jsonrpc_result (.obj [
            ("content", .arr [.obj [("type", .str "text"),
              ("text", .str ("Tool \x27" ++ name ++ "\x27 not found"))]]),
            ("isError", .bool true)]) id) := by
  constructor
  · intro tools name args id hname hlook
    simp [handle_tool_call, Value.getD, Value.getField, Value.truthy, execute_tool,
          registry_lookup, hlook, Value.isDict, Value.hasKey, pyStr, hname,
          create_jsonrpc_result]
  · intro tools name args id hname hlook
    simp [handle_tool_call, Value.getD, Value.getField, Value.truthy, execute_tool,
          registry_lookup, List.lookup, hlook, Value.isDict, Value.hasKey, pyStr,
          hname, create_jsonrpc_result]

/-- Claim C1 amended, witness: the unknown tool `missing_tool` on the empty
registry yields the `isError`-true success envelope, under both the
`tools/call` and the `executeToolCall` protocol shapes. -/
theorem C1_unknown_tool_tool_level_error_witness :
    handle_tool_call [] "tools/call"
        (.obj [("name", .str "missing_tool"), ("arguments", .obj [])]) (.int 7)
      = create_jsonrpc_result (.obj [
          ("content", .arr [.obj [("type", .str "text"),
            ("text", .str "Tool \x27missing_tool\x27 not found")]]),
          ("isError", .bool true)]) (.int 7) ∧
    handle_tool_call [] "executeToolCall"
        (.obj [("toolCall", .obj [("name", .str "missing_tool"),
          ("arguments", .obj [])])]) (.int 8)
      = create_jsonrpc_result (.obj [
          ("content", .arr [.obj [("type", .str "text"),
            ("text", .str "Tool \x27missing_tool\x27 not found")]]),
          ("isError", .bool true)]) (.int 8) :=
  ⟨C1_unknown_tool_tool_level_error.1 [] "missing_tool" (.obj []) (.int 7)
     (by decide) rfl,
   C1_unknown_tool_tool_level_error.2 [] "missing_tool" (.obj []) (.int 8)
     (by decide) rfl⟩

/-- Claim C2: when a registered tool handler raises, the dispatcher returns
a JSON-RPC *success* response (never letting the exception escape) whose
result has `isError` true and a single text content block carrying the
exception text (prefixed `Error executing tool: `). -/
theorem C2_handler_exception_tool_level_error (tools : Registry) (name : String)
    (t : ToolEntry) (e : String) (args : Value) (id : Value)
    (hname : name ≠ "") (hlook : tools.lookup name = some t)
    (hraise : t.method (coerce_args t.param_info args) = .error e) :
    handle_tool_call tools "tools/call"
        (.obj [("name", .str name), ("arguments", args)]) id
      = create_jsonrpc_result (.obj [
          ("content", .arr [.obj [("type", .str "text"),
            ("text", .str ("Error executing tool: " ++ e))]]),
          ("isError", .bool true)]) id := by
  simp [handle_tool_call, Value.getD, Value.getField, Value.truthy, execute_tool,
        registry_lookup, List.lookup, hlook, hraise, process_result, Value.isDict,
        Value.hasKey, hname]

/-- Claim C2, witness: calling the registered always-raising tool `boom`
yields the `isError`-true success envelope carrying the exception text. -/
theorem C2_handler_exception_tool_level_error_witness :
    handle_tool_call demoTools "tools/call"
        (.obj [("name", .str "boom"), ("arguments", .obj [("param", .str "x")])]) (.int 3)
      = create_jsonrpc_result (.obj [
          ("content", .arr [.obj [("type", .str "text"),
            ("text", .str "Error executing tool: kaboom")]]),
          ("isError", .bool true)]) (.int 3) :=
  C2_handler_exception_tool_level_error demoTools "boom" demoFailingEntry
    "kaboom" (.obj [("param", .str "x")]) (.int 3) (by decide) rfl rfl

/-- Claim C10: a `tools/call` (or `executeToolCall`) whose dict-shaped
params carry no tool name — the key absent, or its value falsy such as the
empty string — is answered with the `-32602 Invalid params` protocol error
echoing the request id; the result does not depend on the registry, so no
tool handler is invoked.  The quantifiers range only over dict-shaped params
(and, for `executeToolCall`, an absent or dict-shaped `toolCall` value),
the shapes on which the Python `.get` calls are defined. -/
theorem C10_missing_tool_name :
    (∀ (tools : Registry) (fields : List (String × Value)) (id : Value),
      ((Value.obj fields).getD "name" .null).truthy = false →
      handle_tool_call tools "tools/call" (.obj fields) id
        = create_jsonrpc_error (-32602) "Invalid params"
            (some (.str "Tool name is required")) id) ∧
    (∀ (tools : Registry) (fields : List (String × Value)) (id : Value),
      fields.lookup "toolCall" = none →
      handle_tool_call tools "executeToolCall" (.obj fields) id
        = create_jsonrpc_error (-32602) "Invalid params"
            (some (.str "Tool name is required")) id) ∧
    (∀ (tools : Registry) (fields tcFields : List (String × Value)) (id : Value),
      fields.lookup "toolCall" = some (.obj tcFields) →
      ((Value.obj tcFields).getD "name" .null).truthy = false →
      handle_tool_call tools "executeToolCall" (.obj fields) id
        = create_jsonrpc_error (-32602) "Invalid params"
            (some (.str "Tool name is required")) id) := by
  refine ⟨?_, ?_, ?_⟩
  · intro tools fields id hfalsy
    simp [handle_tool_call, hfalsy]
  · intro tools fields id hlook
    simp [handle_tool_call, Value.getD, Value.getField, Value.truthy, List.lookup,
          hlook]
  · intro tools fields tcFields id hlook hfalsy
    simp only [Value.getD, Value.getField] at hfalsy
    simp [handle_tool_call, Value.getD, Value.getField, hlook, hfalsy]

/-- Claim C3: schema generation — a required single-string-parameter tool
yields `inputSchema.required == ["param"]` with one string property named
`param`; a tool declared with no parameter yields empty `properties` and
empty `required`; an object-typed contract yields one string-typed property
per schema field with its description carried through. -/
theorem C3_schema_generation :
    (∀ (name : String) (t : ToolEntry),
      t.param_info.type = some "string" → t.param_info.required = true →
      (inputSchemaOf (tool_schema name t)).getField "properties"
          = some (.obj [("param", .obj [("type", .str "string"),
              ("description", .str (t.param_info.description.getD "String parameter"))])]) ∧
      (inputSchemaOf (tool_schema name t)).getField "required"
          = some (.arr [.str "param"])) ∧
    (∀ (name : String) (t : ToolEntry),
      t.param_info.type = none →
      (inputSchemaOf (tool_schema name t)).getField "properties" = some (.obj []) ∧
      (inputSchemaOf (tool_schema name t)).getField "required" = some (.arr [])) ∧
    (∀ (name : String) (t : ToolEntry),
      t.param_info.type = some "object" →
      (inputSchemaOf (tool_schema name t)).getField "properties"
          = some (.obj (t.param_info.schema.map fun kv =>
              (kv.1, Value.obj [("type", .str "string"), ("description", .str kv.2)])))) := by
  refine ⟨?_, ?_, ?_⟩
  · intro name t htype hreq
    constructor <;>
      simp [inputSchemaOf, tool_schema, Value.getD, Value.getField, List.lookup,
            htype, hreq]
  · intro name t htype
    constructor <;>
      simp [inputSchemaOf, tool_schema, Value.getD, Value.getField, List.lookup, htype]
  · intro name t htype
    simp [inputSchemaOf, tool_schema, Value.getD, Value.getField, List.lookup, htype]

/-- Claim C3, witness: the three schema-generation shapes evaluated on
concrete tool entries. -/
theorem C3_schema_generation_witness :
    (inputSchemaOf (tool_schema "echo" demoFailingEntry)).getField "required"
        = some (.arr [.str "param"]) ∧
    (inputSchemaOf (tool_schema "now" demoNoParamEntry)).getField "properties"
        = some (.obj []) ∧
    (inputSchemaOf (tool_schema "now" demoNoParamEntry)).getField "required"
        = some (.arr []) ∧
    (inputSchemaOf (tool_schema "find" demoObjectEntry)).getField "properties"
        = some (.obj [("location", .obj [("type", .str "string"),
            ("description", .str "Location string")])]) :=
  ⟨(C3_schema_generation.1 "echo" demoFailingEntry rfl rfl).2,
   (C3_schema_generation.2.1 "now" demoNoParamEntry rfl).1,
   (C3_schema_generation.2.1 "now" demoNoParamEntry rfl).2,
   (C3_schema_generation.2.2 "find" demoObjectEntry rfl).trans rfl⟩

/-- Claim C4: argument coercion before handler invocation — a string-typed
tool whose arguments dict carries `param` has the handler called on that
scalar; an object-typed tool (always `required` in the server registry, as
the fourth conjunct certifies) has the arguments dict passed through
unchanged; a parameterless tool (type `None`, not required, as registered)
has the handler called with no arguments; and `execute_tool` invokes the
looked-up handler exactly on the coerced arguments. -/
theorem C4_argument_coercion :
    (∀ (p : ParamInfo) (fields : List (String × Value)) (v : Value),
      p.type = some "string" → (Value.obj fields).getField "param" = some v →
      coerce_args p (.obj fields) = .withValue v) ∧
    (∀ (p : ParamInfo) (fields : List (String × Value)),
      p.type = some "object" → p.required = true →
      coerce_args p (.obj fields) = .withValue (.obj fields)) ∧
    (∀ (p : ParamInfo) (params : Value),
      p.type = none → p.required = false →
      coerce_args p params = .noArgs) ∧
    (∀ np ∈ registry_param_info,
      (np.2.type = some "object" → np.2.required = true) ∧
      (np.2.type = none → np.2.required = false)) ∧
    (∀ (tools : Registry) (name : String) (t : ToolEntry) (params : Value),
      registry_lookup tools (.str name) = some t →
      execute_tool tools (.str name) params
        = process_result (t.method (coerce_args t.param_info params))) := by
  refine ⟨?_, ?_, ?_, ?_, ?_⟩
  · intro p fields v htype hget
    simp [coerce_args, Value.isDict, Value.hasKey, Value.getD, htype, hget]
  · intro p fields htype hreq
    simp [coerce_args, Value.isDict, Value.isNull, htype, hreq]
  · intro p params htype hreq
    simp [coerce_args, htype, hreq]
  · decide
  · intro tools name t params hlook
    simp [execute_tool, hlook]

/-- Claim C4, witness: the three coercion shapes at concrete inputs, the
object-typed registry entry `find_nearest_store` certified required, and
the handler-invocation identity on the demo registry. -/
theorem C4_argument_coercion_witness :
    coerce_args demoFailingEntry.param_info (.obj [("param", .str "hi")])
        = .withValue (.str "hi") ∧
    coerce_args demoObjectEntry.param_info (.obj [("location", .str "LA")])
        = .withValue (.obj [("location", .str "LA")]) ∧
    coerce_args demoNoParamEntry.param_info (.obj [])
        = .noArgs ∧
    (⟨true, some "object",
       some "An object with \x22location\x22 (required) and \x22store_type\x22 (optional) fields",
       [("location", "String representing the location (e.g., \x22Springfield, IL\x22)"),
        ("store_type", "Optional string representing the store type (e.g., \x22grocery\x22)")],
       []⟩ : ParamInfo).required = true ∧
    execute_tool demoTools (.str "boom") (.obj [("param", .str "hi")])
        = process_result (demoFailingEntry.method
            (coerce_args demoFailingEntry.param_info (.obj [("param", .str "hi")]))) :=
  ⟨C4_argument_coercion.1 demoFailingEntry.param_info [("param", .str "hi")]
     (.str "hi") rfl rfl,
   C4_argument_coercion.2.1 demoObjectEntry.param_info [("location", .str "LA")]
     rfl rfl,
   C4_argument_coercion.2.2.1 demoNoParamEntry.param_info (.obj []) rfl rfl,
   (C4_argument_coercion.2.2.2.1
     ("StoreLocatorToolProvider_find_nearest_store",
      ⟨true, some "object",
       some "An object with \x22location\x22 (required) and \x22store_type\x22 (optional) fields",
       [("location", "String representing the location (e.g., \x22Springfield, IL\x22)"),
        ("store_type", "Optional string representing the store type (e.g., \x22grocery\x22)")],
       []⟩) (by decide)).1 rfl,
   C4_argument_coercion.2.2.2.2 demoTools "boom" demoFailingEntry
     (.obj [("param", .str "hi")]) rfl⟩

/-- Claim C10, witness: a `tools/call` without a name, an `executeToolCall`
without a `toolCall` object, and an `executeToolCall` with an empty name all
get the `-32602` error, on a registry that does hold a tool. -/
theorem C10_missing_tool_name_witness :
    handle_tool_call demoTools "tools/call" (.obj []) (.int 11)
        = create_jsonrpc_error (-32602) "Invalid params"
            (some (.str "Tool name is required")) (.int 11) ∧
    handle_tool_call demoTools "executeToolCall" (.obj []) (.int 12)
        = create_jsonrpc_error (-32602) "Invalid params"
            (some (.str "Tool name is required")) (.int 12) ∧
    handle_tool_call demoTools "executeToolCall"
        (.obj [("toolCall", .obj [("name", .str "")])]) (.int 13)
      = create_jsonrpc_error (-32602) "Invalid params"
            (some (.str "Tool name is required")) (.int 13) :=
  ⟨C10_missing_tool_name.1 demoTools [] (.int 11) rfl,
   C10_missing_tool_name.2.1 demoTools [] (.int 12) rfl,
   C10_missing_tool_name.2.2 demoTools [("toolCall", .obj [("name", .str "")])]
     [("name", .str "")] (.int 13) rfl rfl⟩

/-- Claim C5, counterexample: a run of `stop_server` on a live process in
which writing the shutdown request raises.  The exit notification, living in
the same inner `try`, is never attempted; and since `terminate` also raises,
`kill` is never attempted either even though every poll reports the process
alive — so the run ends with the child possibly still running.  This
refutes both halves of the claim. -/
theorem C5_counterexample :
    (stop_server ⟨true, true, true, false, true, true, true, false⟩).triedShutdownWrite = true ∧
    (stop_server ⟨true, true, true, false, true, true, true, false⟩).triedExitWrite = false ∧
    (stop_server ⟨true, true, true, false, true, true, true, false⟩).triedTerminate = true ∧
    (stop_server ⟨true, true, true, false, true, true, true, false⟩).triedKill = false :=
  ⟨rfl, rfl, rfl, rfl⟩

/-- Claim C5 as amended: exceptions in the graceful phase are swallowed and
never prevent the escalation — whenever the process is still alive after the
graceful phase, `terminate` is attempted, and whenever `terminate` did not
itself raise and the process is still alive, `kill` is attempted; the
process handle is cleared on every exit path.  But a step that raises skips
the rest of its own phase: an exception writing the shutdown request skips
the exit notification, and an exception from `terminate` skips `kill`. -/
theorem C5_stop_escalation :
    (∀ b : ProcBehavior, (stop_server b).processCleared = true) ∧
    (∀ b : ProcBehavior, b.hasProcess = true → b.aliveAtEntry = true →
      (stop_server b).triedShutdownWrite = true ∧
      (b.shutdownWriteRaises = false → (stop_server b).triedExitWrite = true) ∧
      (b.aliveAfterGrace = true → (stop_server b).triedTerminate = true) ∧
      (b.aliveAfterGrace = true → b.terminateRaises = false →
        b.aliveAfterTerminate = true → (stop_server b).triedKill = true)) := by
  constructor
  · intro b
    obtain ⟨hp, a0, sr, er, ag, tr, a1, kr⟩ := b
    cases hp <;> cases a0 <;> cases ag <;> cases tr <;> cases a1 <;> rfl
  · intro b hproc halive
    obtain ⟨hp, a0, sr, er, ag, tr, a1, kr⟩ := b
    cases hp <;> cases a0 <;> cases sr <;> cases ag <;> cases tr <;> cases a1 <;>
      simp_all [stop_server]

/-- Claim C5 amended, witness: a live process whose graceful phase succeeds
but which never exits voluntarily gets the full escalation, ending in
`kill`, and the handle is cleared. -/
theorem C5_stop_escalation_witness :
    (stop_server ⟨true, true, false, false, true, false, true, false⟩).processCleared = true ∧
    (stop_server ⟨true, true, false, false, true, false, true, false⟩).triedShutdownWrite = true ∧
    (stop_server ⟨true, true, false, false, true, false, true, false⟩).triedExitWrite = true ∧
    (stop_server ⟨true, true, false, false, true, false, true, false⟩).triedTerminate = true ∧
    (stop_server ⟨true, true, false, false, true, false, true, false⟩).triedKill = true :=
  ⟨C5_stop_escalation.1 ⟨true, true, false, false, true, false, true, false⟩,
   (C5_stop_escalation.2 ⟨true, true, false, false, true, false, true, false⟩ rfl rfl).1,
   (C5_stop_escalation.2 ⟨true, true, false, false, true, false, true, false⟩ rfl rfl).2.1 rfl,
   (C5_stop_escalation.2 ⟨true, true, false, false, true, false, true, false⟩ rfl rfl).2.2.1 rfl,
   (C5_stop_escalation.2 ⟨true, true, false, false, true, false, true, false⟩ rfl rfl).2.2.2 rfl rfl rfl⟩

/-- Claim C6: translation of every `tools/call` reply by the client — a
protocol-level error becomes a generic failure value; a tool-level
`isError` result becomes a failure value carrying the first content block's
text; a successful first text block is returned parsed when it parses and
as the raw string otherwise; a first block of any other type is returned
verbatim as the content list. -/
theorem C6_reply_translation :
    (∀ (parse : String → Option Value) (name : String)
       (fields : List (String × Value)) (err : Value) (m : String),
      (Value.obj fields).getField "error" = some err →
      err.getField "message" = some (.str m) →
      client_translate_reply parse name (some (.obj fields))
        = .obj [("error", .str ("Server error: " ++ m))]) ∧
    (∀ (parse : String → Option Value) (name : String)
       (fields : List (String × Value)) (r first : Value) (rest : List Value) (t : Value),
      (Value.obj fields).getField "error" = none →
      (Value.obj fields).getField "result" = some r →
      r.getField "isError" = some (.bool true) →
      r.getField "content" = some (.arr (first :: rest)) →
      first.getField "text" = some t →
      client_translate_reply parse name (some (.obj fields)) = .obj [("error", t)]) ∧
    (∀ (parse : String → Option Value) (name : String)
       (fields : List (String × Value)) (r first : Value) (rest : List Value) (text : String),
      (Value.obj fields).getField "error" = none →
      (Value.obj fields).getField "result" = some r →
      (r.getD "isError" .null).truthy = false →
      r.getField "content" = some (.arr (first :: rest)) →
      first.getField "type" = some (.str "text") →
      first.getField "text" = some (.str text) →
      client_translate_reply parse name (some (.obj fields))
        = (parse text).getD (.str text)) ∧
    (∀ (parse : String → Option Value) (name : String)
       (fields : List (String × Value)) (r first : Value) (rest : List Value) (tag : String),
      (Value.obj fields).getField "error" = none →
      (Value.obj fields).getField "result" = some r →
      (r.getD "isError" .null).truthy = false →
      r.getField "content" = some (.arr (first :: rest)) →
      first.getField "type" = some (.str tag) →
      tag ≠ "text" →
      client_translate_reply parse name (some (.obj fields))
        = .arr (first :: rest)) := by
  refine ⟨?_, ?_, ?_, ?_⟩
  · intro parse name fields err m herr hmsg
    cases fields with
    | nil => simp [Value.getField] at herr
    | cons f fs =>
      simp [client_translate_reply, Value.truthy, Value.hasKey, Value.getD,
            herr, hmsg, pyStr]
  · intro parse name fields r first rest t herr hres hisErr hcontent htext
    cases fields with
    | nil => simp [Value.getField] at hres
    | cons f fs =>
      simp [client_translate_reply, Value.truthy, Value.hasKey, Value.getD,
            herr, hres, hisErr, hcontent, htext]
  · intro parse name fields r first rest text herr hres hisErr hcontent htype htext
    simp only [Value.getD, Value.truthy] at hisErr
    cases fields with
    | nil => simp [Value.getField] at hres
    | cons f fs =>
      cases hp : parse text <;>
        simp [client_translate_reply, Value.truthy, Value.hasKey, Value.getD,
              herr, hres, hisErr, hcontent, htype, htext, hp]
  · intro parse name fields r first rest tag herr hres hisErr hcontent htype htag
    simp only [Value.getD, Value.truthy] at hisErr
    cases fields with
    | nil => simp [Value.getField] at hres
    | cons f fs =>
      simp [client_translate_reply, Value.truthy, Value.hasKey, Value.getD,
            herr, hres, hisErr, hcontent, htype, htag]

/-- Claim C6, witness: the four translation shapes at concrete replies —
a `-32601` protocol error, an `isError` reply, a text block both with a
parsing and a non-parsing payload (via two `parse` oracles), and an image
content block returned verbatim. -/
theorem C6_reply_translation_witness :
    client_translate_reply (fun _ => none) "t"
        (some (.obj [("jsonrpc", .str "2.0"),
          ("error", .obj [("code", .int (-32601)), ("message", .str "Method not found")]),
          ("id", .int 1)]))
      = .obj [("error", .str "Server error: Method not found")] ∧
    client_translate_reply (fun _ => none) "t"
        (some (.obj [("jsonrpc", .str "2.0"),
          ("result", .obj [("content", .arr [.obj [("type", .str "text"),
            ("text", .str "Tool \x27nope\x27 not found")]]), ("isError", .bool true)]),
          ("id", .int 2)]))
      = .obj [("error", .str "Tool \x27nope\x27 not found")] ∧
    client_translate_reply (fun _ => some (.obj [("a", .int 1)])) "t"
        (some (.obj [("jsonrpc", .str "2.0"),
          ("result", .obj [("content", .arr [.obj [("type", .str "text"),
            ("text", .str "json text")]]), ("isError", .bool false)]),
          ("id", .int 3)]))
      = .obj [("a", .int 1)] ∧
    client_translate_reply (fun _ => none) "t"
        (some (.obj [("jsonrpc", .str "2.0"),
          ("result", .obj [("content", .arr [.obj [("type", .str "text"),
            ("text", .str "plain text")]]), ("isError", .bool false)]),
          ("id", .int 4)]))
      = .str "plain text" ∧
    client_translate_reply (fun _ => none) "t"
        (some (.obj [("jsonrpc", .str "2.0"),
          ("result", .obj [("content", .arr [.obj [("type", .str "image"),
            ("data", .str "xyz")]]), ("isError", .bool false)]),
          ("id", .int 5)]))
      = .arr [.obj [("type", .str "image"), ("data", .str "xyz")]] :=
  ⟨C6_reply_translation.1 (fun _ => none) "t"
     [("jsonrpc", .str "2.0"),
      ("error", .obj [("code", .int (-32601)), ("message", .str "Method not found")]),
      ("id", .int 1)]
     (.obj [("code", .int (-32601)), ("message", .str "Method not found")])
     "Method not found" rfl rfl,
   C6_reply_translation.2.1 (fun _ => none) "t"
     [("jsonrpc", .str "2.0"),
      ("result", .obj [("content", .arr [.obj [("type", .str "text"),
        ("text", .str "Tool \x27nope\x27 not found")]]), ("isError", .bool true)]),
      ("id", .int 2)]
     (.obj [("content", .arr [.obj [("type", .str "text"),
       ("text", .str "Tool \x27nope\x27 not found")]]), ("isError", .bool true)])
     (.obj [("type", .str "text"), ("text", .str "Tool \x27nope\x27 not found")])
     [] (.str "Tool \x27nope\x27 not found") rfl rfl rfl rfl rfl,
   C6_reply_translation.2.2.1 (fun _ => some (.obj [("a", .int 1)])) "t"
     [("jsonrpc", .str "2.0"),
      ("result", .obj [("content", .arr [.obj [("type", .str "text"),
        ("text", .str "json text")]]), ("isError", .bool false)]),
      ("id", .int 3)]
     (.obj [("content", .arr [.obj [("type", .str "text"),
       ("text", .str "json text")]]), ("isError", .bool false)])
     (.obj [("type", .str "text"), ("text", .str "json text")])
     [] "json text" rfl rfl rfl rfl rfl rfl,
   C6_reply_translation.2.2.1 (fun _ => none) "t"
     [("jsonrpc", .str "2.0"),
      ("result", .obj [("content", .arr [.obj [("type", .str "text"),
        ("text", .str "plain text")]]), ("isError", .bool false)]),
      ("id", .int 4)]
     (.obj [("content", .arr [.obj [("type", .str "text"),
       ("text", .str "plain text")]]), ("isError", .bool false)])
     (.obj [("type", .str "text"), ("text", .str "plain text")])
     [] "plain text" rfl rfl rfl rfl rfl rfl,
   C6_reply_translation.2.2.2 (fun _ => none) "t"
     [("jsonrpc", .str "2.0"),
      ("result", .obj [("content", .arr [.obj [("type", .str "image"),
        ("data", .str "xyz")]]), ("isError", .bool false)]),
      ("id", .int 5)]
     (.obj [("content", .arr [.obj [("type", .str "image"),
       ("data", .str "xyz")]]), ("isError", .bool false)])
     (.obj [("type", .str "image"), ("data", .str "xyz")])
     [] "image" rfl rfl rfl rfl rfl (by decide)⟩

/-- Helper: no branch of the notification handler writes a reply. -/
theorem writesOf_handle_notification_msg (message : Value) :
    writesOf (handle_notification_msg message) = [] := by
  unfold handle_notification_msg
  rcases (message.getD "method" (.str "")) with _ | b | n | s | elems | flds <;>
    simp [writesOf]
  by_cases hs : s = "exit" <;> simp [hs, writesOf]

/-- Claim C7: `shutdown` is acknowledged with a null result and does not
terminate the process; an `exit` request writes its null-result response and
then terminates; an `exit` notification terminates without writing any
reply. -/
theorem C7_shutdown_vs_exit :
    (∀ (tools : Registry) (fields : List (String × Value)) (id : Value),
      fields.lookup "method" = some (.str "shutdown") →
      fields.lookup "id" = some id →
      handle_jsonrpc_message tools (.obj fields)
        = [.write (create_jsonrpc_result .null id)]) ∧
    (∀ (tools : Registry) (fields : List (String × Value)) (id : Value),
      fields.lookup "method" = some (.str "exit") →
      fields.lookup "id" = some id →
      handle_jsonrpc_message tools (.obj fields)
        = [.write (create_jsonrpc_result .null id), .exitProcess]) ∧
    (∀ (tools : Registry) (fields : List (String × Value)),
      fields.lookup "method" = some (.str "exit") →
      fields.lookup "id" = none →
      handle_jsonrpc_message tools (.obj fields) = [.exitProcess]) := by
  refine ⟨?_, ?_, ?_⟩
  · intro tools fields id hmeth hid
    simp [handle_jsonrpc_message, Value.hasKey, Value.getField, Value.getD, hid,
          handle_request, hmeth, handle_shutdown_request]
  · intro tools fields id hmeth hid
    simp [handle_jsonrpc_message, Value.hasKey, Value.getField, Value.getD, hid,
          handle_request, hmeth, handle_exit_request]
  · intro tools fields hmeth hid
    simp [handle_jsonrpc_message, Value.hasKey, Value.getField, Value.getD, hid,
          handle_notification_msg, hmeth]

/-- Claim C7, witness: the three shapes at concrete messages. -/
theorem C7_shutdown_vs_exit_witness :
    handle_jsonrpc_message [] (.obj [("method", .str "shutdown"), ("id", .int 21)])
        = [.write (create_jsonrpc_result .null (.int 21))] ∧
    handle_jsonrpc_message [] (.obj [("method", .str "exit"), ("id", .int 22)])
        = [.write (create_jsonrpc_result .null (.int 22)), .exitProcess] ∧
    handle_jsonrpc_message [] (.obj [("method", .str "exit")]) = [.exitProcess] :=
  ⟨C7_shutdown_vs_exit.1 [] [("method", .str "shutdown"), ("id", .int 21)]
     (.int 21) rfl rfl,
   C7_shutdown_vs_exit.2.1 [] [("method", .str "exit"), ("id", .int 22)]
     (.int 22) rfl rfl,
   C7_shutdown_vs_exit.2.2 [] [("method", .str "exit")] rfl rfl⟩

/-- Claim C8: the initialize response is a function only of the request
(the server keeps no connection state), so a second initialize reports the
same `serverInfo` and the same `capabilities` as the first. -/
theorem C8_initialize_idempotent (p1 p2 id1 id2 : Value) :
    ((handle_initialize_request p1 id1).getD "result" .null).getField "serverInfo"
        = ((handle_initialize_request p2 id2).getD "result" .null).getField "serverInfo" ∧
    ((handle_initialize_request p1 id1).getD "result" .null).getField "capabilities"
        = ((handle_initialize_request p2 id2).getD "result" .null).getField "capabilities" :=
  ⟨rfl, rfl⟩

/-- Claim C9: a message without an `id` never produces a reply (recognized
or not), while a request whose method is none of the recognized ones gets
the `-32601 Method not found` protocol error echoing its id. -/
theorem C9_notification_vs_unknown_method :
    (∀ (tools : Registry) (fields : List (String × Value)),
      fields.lookup "id" = none →
      writesOf (handle_jsonrpc_message tools (.obj fields)) = []) ∧
    (∀ (tools : Registry) (fields : List (String × Value)) (m : String) (id : Value),
      fields.lookup "id" = some id →
      fields.lookup "method" = some (.str m) →
      m ∉ (["initialize", "tools/list", "getToolDefinitions", "tools/call",
            "executeToolCall", "shutdown", "exit", "ping"] : List String) →
      handle_jsonrpc_message tools (.obj fields)
        = [.write (create_jsonrpc_error (-32601) "Method not found"
            (some (.str ("Method \x27" ++ m ++ "\x27 not found"))) id)]) := by
  constructor
  · intro tools fields hid
    simp [handle_jsonrpc_message, Value.hasKey, Value.getField, hid,
          writesOf_handle_notification_msg]
  · intro tools fields m id hid hmeth hmem
    simp only [List.mem_cons, List.not_mem_nil, or_false, not_or] at hmem
    obtain ⟨h1, h2, h3, h4, h5, h6, h7, h8⟩ := hmem
    simp [handle_jsonrpc_message, Value.hasKey, Value.getField, Value.getD, hid,
          handle_request, hmeth, method_not_found, pyStr,
          h1, h2, h3, h4, h5, h6, h7, h8]

/-- Claim C9, witness: an unrecognized notification draws no reply and an
unrecognized request draws the `-32601` error. -/
theorem C9_notification_vs_unknown_method_witness :
    writesOf (handle_jsonrpc_message [] (.obj [("method", .str "bogus")])) = [] ∧
    handle_jsonrpc_message [] (.obj [("method", .str "bogus"), ("id", .int 4)])
      = [.write (create_jsonrpc_error (-32601) "Method not found"
          (some (.str "Method \x27bogus\x27 not found")) (.int 4))] :=
  ⟨C9_notification_vs_unknown_method.1 [] [("method", .str "bogus")] rfl,
   C9_notification_vs_unknown_method.2 [] [("method", .str "bogus"), ("id", .int 4)]
     "bogus" (.int 4) rfl rfl (by decide)⟩

end MCP
